import Mathlib

/-!
Shallow embedding of `drgn_tools/scsi.py`: the SCSI host/device/command
report helpers.  Kernel memory is modelled as pre-sampled data: every
field read that the source performs appears as a field of one of the
record types below, and a read that can raise a drgn `FaultError`
(reading a string through a possibly bad pointer) is modelled as an
`Option` value, `none` standing for the fault.  drgn object arithmetic
follows C semantics, so subtraction of two `unsigned long` objects and
multiplication producing an `unsigned int` are embedded with explicit
`% 2 ^ 64` / `% 2 ^ 32` reductions; plain Python integer arithmetic
(address + sizeof) is embedded as unbounded `Nat` arithmetic.
-/

/-- `hex()` of Python applied to `value_()` of an address. -/
def hex (n : Nat) : String :=
  "0x" ++ String.mk (Nat.toDigits 16 n)

/-- Modelled from the spec: `timestamp_str` comes from `drgn_tools.util`,
which is presentation-layer glue declared out of scope (spec section 1);
it formats a nanosecond count.  It is modelled as a total formatter of
the nanosecond count. -/
def timestamp_str (ns : Nat) : String :=
  toString ns

/-- Fields of `struct bio` read by the source: the sector, under either
of its two historical names (`bi_sector` or `bi_iter.bi_sector`). -/
structure BioData where
  bi_sector : Nat
  bi_iter_bi_sector : Nat
deriving DecidableEq

/-- Fields of `struct request` read by the source: the `bio` pointer
value (0 = NULL). -/
structure ReqData where
  bio_ptr : Nat
deriving DecidableEq

/-- Fields of `struct scsi_cmnd` read by the source: the CDB byte array
`cmnd`, `transfersize`, `jiffies_at_alloc`, and the value of the
`request` member (meaningful only on kernels whose `scsi_cmnd` has that
member). -/
structure CmndData where
  cmnd : Nat → Nat
  transfersize : Nat
  jiffies_at_alloc : Nat
  request_field : Nat

/-- A request queue (`struct request_queue`): whether the type has the
`mq_ops` member (`has_member(rq, "mq_ops")`), the `mq_ops` pointer
value, and the pending request addresses produced by the two external
walkers `for_each_sq_pending_request` / `for_each_mq_pending_request`
of `drgn_tools.block` (the multi-queue walker yields
(hardware queue, request) pairs). -/
structure RequestQueue where
  has_mq_ops : Bool
  mq_ops : Nat
  sq_pending : List Nat
  mq_pending : List (Nat × Nat)
deriving DecidableEq

/-- Fields of `struct gendisk` read by `print_scsi_cmnds`: the queue,
the `private_data` pointer, and the `device` pointer read through it
(`scsi_disk.device`). -/
structure Disk where
  queue : RequestQueue
  private_data : Nat
  device_ptr : Nat
deriving DecidableEq

/-- Fields of `struct scsi_device` read by the source.  `vendor_read`
models `scsi_dev.vendor.string_().decode()` (`none` = `FaultError`);
`name_read` models the `dev.kobj.name` string read performed by
`scsi_device_name` (`none` = `FaultError`).  `host_no` is read through
the device's `host` pointer by `scsi_id`. -/
structure ScsiDevice where
  addr : Nat
  vendor_read : Option String
  name_read : Option String
  sdev_state : String
  host_no : Nat
  channel : Nat
  id : Nat
  lun : Nat
  iorequest_cnt : Nat
  iodone_cnt : Nat
  ioerr_cnt : Nat
deriving DecidableEq

/-- Fields of `struct Scsi_Host` read by the source.
`module_name_read` models `shost.hostt.module.name.string_()` (`none` =
`FaultError`); `module_version` models the `hostt.module.version`
pointer (`none` = NULL pointer, the source tests its truthiness);
`host_busy` / `eh_deadline` are `none` when the kernel's `Scsi_Host`
lacks the member (`has_member` probe). -/
structure ScsiHost where
  addr : Nat
  host_no : Nat
  module_name_read : Option String
  module_version : Option String
  host_busy : Option Nat
  host_blocked : Nat
  host_failed : Nat
  shost_state : String
  eh_deadline : Option Nat
  devices : List ScsiDevice
deriving DecidableEq

/-- The sampled debuggee: host list (result of `for_each_scsi_host`),
disk list (result of `for_each_disk`), the `ensure_debuginfo` result
for `["sd_mod"]` (`some msg` = debug info unavailable), the sampled
`jiffies` value, `sizeof(struct request)`, the two schema probes
`has_member(scsi_cmnd, "request")` and `has_member(req.bio, "bi_sector")`,
and typed reads of command / request / bio data at an address. -/
structure Prog where
  hosts : List ScsiHost
  disks : List Disk
  debuginfo_msg : Option String
  jiffies : Nat
  request_size : Nat
  cmnd_has_request : Bool
  bio_has_bi_sector : Bool
  cmnd_at : Nat → CmndData
  req_at : Nat → ReqData
  bio_at : Nat → BioData

/-- `host_module_name`: fetch the module name of a host, substituting
"unknown" on `FaultError`. -/
def host_module_name (shost : ScsiHost) : String :=
  match shost.module_name_read with
  | some s => s
  | none => "unknown"

/-- `scsi_device_name`: the device name, substituting the empty string
on `FaultError`. -/
def scsi_device_name (sdev : ScsiDevice) : String :=
  match sdev.name_read with
  | some s => s
  | none => ""

/-- `scsi_id`: Host:Controller:Target:Lun as a string, `<unknown>` for a
NULL device pointer. -/
def scsi_id (scsi_dev : ScsiDevice) : String :=
  if scsi_dev.addr = 0 then "<unknown>"
  else
    "[" ++ toString scsi_dev.host_no ++ ":" ++ toString scsi_dev.channel ++
      ":" ++ toString scsi_dev.id ++ ":" ++ toString scsi_dev.lun ++ "]"

/-- The module-version column of `print_scsi_hosts`: the version string
when the `version` pointer is non-NULL, otherwise "n/a". -/
def modver_col (shost : ScsiHost) : String :=
  match shost.module_version with
  | some s => s
  | none => "n/a"

/-- The `Busy` column of `print_scsi_hosts`: the `host_busy.counter`
value when `Scsi_Host` has the `host_busy` member, otherwise "n/a". -/
def host_busy_col (shost : ScsiHost) : String :=
  match shost.host_busy with
  | some n => toString n
  | none => "n/a"

/-- The `EH val` column of `print_scsi_hosts`. -/
def eh_deadline_col (shost : ScsiHost) : String :=
  match shost.eh_deadline with
  | some n => toString n
  | none => "n/a"

/-- Header row of the `print_scsi_hosts` table. -/
def hosts_header : List String :=
  ["SCSI_HOST", "NAME", "DRIVER", "Version", "Busy", "Blocked", "Fail",
    "State", "EH val"]

/-- One data row of the `print_scsi_hosts` table. -/
def scsi_host_row (shost : ScsiHost) : List String :=
  [hex shost.addr,
    "host" ++ toString shost.host_no,
    host_module_name shost,
    modver_col shost,
    host_busy_col shost,
    toString shost.host_blocked,
    toString shost.host_failed,
    shost.shost_state,
    eh_deadline_col shost]

/-- The data rows of `print_scsi_hosts`: one row per host, skipping
hosts whose module name is "ahci". -/
def scsi_hosts_rows : List ScsiHost → List (List String)
  | [] => []
  | shost :: rest =>
    if host_module_name shost = "ahci" then scsi_hosts_rows rest
    else scsi_host_row shost :: scsi_hosts_rows rest

/-- `print_scsi_hosts`: the printed table (header plus data rows). -/
def print_scsi_hosts (p : Prog) : List (List String) :=
  hosts_header :: scsi_hosts_rows p.hosts

/-- Header row of the per-host device table of `print_shost_devs`. -/
def devs_header : List String :=
  ["Device", "H:C:T:L", "Scsi Device Addr", "Vendor", "State", "IO Req",
    "IO Done", "IO Error"]

/-- One device row of `print_shost_devs`.  The vendor string read is
not guarded by any exception handler in the source, so a `FaultError`
(`none`) propagates; the name read inside `scsi_device_name` is
guarded. -/
def shost_dev_row (scsi_dev : ScsiDevice) : Option (List String) :=
  match scsi_dev.vendor_read with
  | none => none
  | some vendor =>
    some [scsi_device_name scsi_dev,
      scsi_id scsi_dev,
      hex scsi_dev.addr,
      vendor,
      scsi_dev.sdev_state,
      toString scsi_dev.iorequest_cnt,
      toString scsi_dev.iodone_cnt,
      toString scsi_dev.ioerr_cnt]

/-- The device rows of one host of `print_shost_devs`; `none` when a
vendor read faults (the exception escapes the per-host loop and no
table is printed for the host). -/
def shost_dev_rows : List ScsiDevice → Option (List (List String))
  | [] => some []
  | scsi_dev :: rest =>
    match shost_dev_row scsi_dev with
    | none => none
    | some row =>
      match shost_dev_rows rest with
      | none => none
      | some rows => some (row :: rows)

/-- Result of `print_shost_devs`: either skipped by the debug-info
gate (with the message), or run, yielding the device tables printed
before any uncaught fault, plus whether a fault escaped the function.
(The per-host banner printed by `print_shost_header` is formatting and
is not modelled.) -/
inductive DevReport where
  | skipped (msg : String)
  | ran (tables : List (List (List String))) (faulted : Bool)
deriving DecidableEq

/-- Whether a fault escaped `print_shost_devs`. -/
def dev_report_faulted : DevReport → Bool
  | DevReport.skipped _ => false
  | DevReport.ran _ b => b

/-- The host loop of `print_shost_devs`: skip "ahci" hosts, print one
device table per remaining host; an uncaught vendor-read fault aborts
the loop, keeping the tables already printed. -/
def shost_devs_go (acc : List (List (List String))) :
    List ScsiHost → List (List (List String)) × Bool
  | [] => (acc, false)
  | shost :: rest =>
    if host_module_name shost = "ahci" then shost_devs_go acc rest
    else
      match shost_dev_rows shost.devices with
      | none => (acc, true)
      | some rows => shost_devs_go (acc ++ [devs_header :: rows]) rest

/-- `print_shost_devs`: gate on `ensure_debuginfo(prog, ["sd_mod"])`,
then print each non-ahci host's device table. -/
def print_shost_devs (p : Prog) : DevReport :=
  match p.debuginfo_msg with
  | some msg => DevReport.skipped msg
  | none =>
    let r := shost_devs_go [] p.hosts
    DevReport.ran r.1 r.2

/-- `for_each_scsi_cmd_sq`: offset each single-queue pending request
address by `sizeof(struct request)`; a zero result is skipped. -/
def for_each_scsi_cmd_sq (p : Prog) (requestq : RequestQueue) : List Nat :=
  requestq.sq_pending.filterMap fun rq =>
    let scmnd := rq + p.request_size
    if scmnd = 0 then none else some scmnd

/-- `for_each_scsi_cmd_mq`: offset each multi-queue pending request
address by `sizeof(struct request)`; a zero result is skipped. -/
def for_each_scsi_cmd_mq (p : Prog) (requestq : RequestQueue) : List Nat :=
  requestq.mq_pending.filterMap fun pr =>
    let scmnd := pr.2 + p.request_size
    if scmnd = 0 then none else some scmnd

/-- `for_each_scsi_cmnd`: dispatch on
`has_member(rq, "mq_ops") and rq.mq_ops`. -/
def for_each_scsi_cmnd (p : Prog) (scsi_disk : Disk) : List Nat :=
  if scsi_disk.queue.has_mq_ops = true ∧ scsi_disk.queue.mq_ops ≠ 0 then
    for_each_scsi_cmd_mq p scsi_disk.queue
  else
    for_each_scsi_cmd_sq p scsi_disk.queue

/-- The two command enumeration paths. -/
inductive QueuePath where
  | mq
  | sq
deriving DecidableEq

/-- Which of the two branches of `for_each_scsi_cmnd` runs for a disk. -/
def cmnd_path (scsi_disk : Disk) : QueuePath :=
  if scsi_disk.queue.has_mq_ops = true ∧ scsi_disk.queue.mq_ops ≠ 0 then
    QueuePath.mq
  else
    QueuePath.sq

/-- Modelled from the spec: "the queue exposes a multi-queue operations
table" — the `mq_ops` member exists and is non-NULL. -/
def spec_exposes_mq_ops (requestq : RequestQueue) : Prop :=
  requestq.has_mq_ops = true ∧ requestq.mq_ops ≠ 0

instance (requestq : RequestQueue) : Decidable (spec_exposes_mq_ops requestq) :=
  inferInstanceAs (Decidable (_ ∧ _))

/-- The request-address reconstruction of `print_scsi_cmnds`:
`scsi_cmnd.value_() - sizeof(struct request)` (taken when `scsi_cmnd`
has no `request` member). -/
def req_of_cmnd (p : Prog) (caddr : Nat) : Nat :=
  caddr - p.request_size

/-- The request address used for a command row: the `request` member
when present, otherwise the subtraction `req_of_cmnd`. -/
def cmnd_req_addr (p : Prog) (caddr : Nat) : Nat :=
  if p.cmnd_has_request then (p.cmnd_at caddr).request_field
  else req_of_cmnd p caddr

/-- The transfer-length computation of `print_scsi_cmnds`: for opcode
0x2a or 0x28, `(cmnd[7] << 8 | cmnd[8]) * transfersize`, a product of a
C `int` and the `unsigned int` member `transfersize`, hence reduced
modulo `2 ^ 32` by the usual arithmetic conversions drgn applies;
0 for every other opcode. -/
def xfer_len_of (op b7 b8 ts : Nat) : Nat :=
  if op = 0x2a ∨ op = 0x28 then (((b7 <<< 8) ||| b8) * ts) % 2 ^ 32
  else 0

/-- The age computation of `print_scsi_cmnds`:
`(prog["jiffies"] - scsi_cmnd.jiffies_at_alloc).value_() * 1000000`.
Both operands are C `unsigned long` objects, so the drgn subtraction
wraps modulo `2 ^ 64`; the Python multiplication by 1000000 is
unbounded. -/
def cmnd_age (jiffies jiffies_at_alloc : Nat) : Nat :=
  ((jiffies + 2 ^ 64 - jiffies_at_alloc) % 2 ^ 64) * 1000000

/-- Header row of the per-disk table of `print_scsi_cmnds`. -/
def cmnd_header : List String :=
  ["Count", "Request", "Bio", "SCSI Cmnd", "Opcode", "Length", "Age",
    "Sector"]

/-- The command loop of `print_scsi_cmnds` for one disk.  State: the
row counter, the `sector` local variable (`none` = never assigned; it
is assigned only under the `if req.bio:` guard and is never reset), and
the rows built so far.  Returns `none` when an exception escapes: the
`counter == 0` header block first executes
`cast("struct scsi_disk *", disk.private_data)`, and `struct scsi_disk`
is an `sd_mod` type, so the cast raises when the `sd_mod` debug info is
unavailable; and row building raises `UnboundLocalError` when it reads
`sector` while it is unassigned.  Either exception aborts the whole
report. -/
def cmnd_rows_go (p : Prog) (d : Disk) :
    Nat → Option Nat → List (List String) → List Nat →
      Option (Nat × Option Nat × List (List String))
  | counter, sector, rows, [] => some (counter, sector, rows)
  | counter, sector, rows, caddr :: rest =>
    if caddr = 0 then
      cmnd_rows_go p d counter sector rows rest
    else if counter = 0 ∧ p.debuginfo_msg.isSome then
      none
    else if counter = 0 ∧ (d.private_data = 0 ∨ d.device_ptr = 0) then
      cmnd_rows_go p d counter sector rows rest
    else
      let c := p.cmnd_at caddr
      let req := cmnd_req_addr p caddr
      let xfer := xfer_len_of (c.cmnd 0) (c.cmnd 7) (c.cmnd 8) c.transfersize
      let bio_ptr := (p.req_at req).bio_ptr
      let sector' :=
        if bio_ptr ≠ 0 then
          some (if p.bio_has_bi_sector then (p.bio_at bio_ptr).bi_sector
            else (p.bio_at bio_ptr).bi_iter_bi_sector)
        else sector
      let age := cmnd_age p.jiffies c.jiffies_at_alloc
      match sector' with
      | none => none
      | some s =>
        cmnd_rows_go p d (counter + 1) (some s)
          (rows ++ [[toString (counter + 1), hex req, hex bio_ptr, hex caddr,
            hex (c.cmnd 0), toString xfer, timestamp_str age, toString s]])
          rest

/-- The disk loop of `print_scsi_cmnds`: the `sector` state persists
from one disk to the next; a disk's table is printed only when it has
at least one data row; an `UnboundLocalError` aborts the loop, keeping
the tables already printed (second component `true`). -/
def print_scsi_cmnds_go (p : Prog) :
    Option Nat → List (List (List String)) → List Disk →
      List (List (List String)) × Bool
  | _, tables, [] => (tables, false)
  | sector, tables, d :: rest =>
    match cmnd_rows_go p d 0 sector [] (for_each_scsi_cmnd p d) with
    | none => (tables, true)
    | some (_, sector', rows) =>
      print_scsi_cmnds_go p sector'
        (if rows = [] then tables else tables ++ [cmnd_header :: rows]) rest

/-- `print_scsi_cmnds`: the per-disk in-flight command tables.  Note:
the source performs no `ensure_debuginfo` gating here; with `sd_mod`
debug info unavailable it still iterates the disks and their pending
commands, and crashes at the `struct scsi_disk` cast as soon as a
disk's command reaches the header block, instead of skipping with a
message. -/
def print_scsi_cmnds (p : Prog) : List (List (List String)) × Bool :=
  print_scsi_cmnds_go p none [] p.disks

/-! ### Helper lemmas -/

lemma scsi_hosts_rows_filter_ahci (l : List ScsiHost) :
    scsi_hosts_rows l =
      scsi_hosts_rows (l.filter fun h => host_module_name h != "ahci") := by
  induction l with
  | nil => rfl
  | cons h t ih =>
    by_cases hh : host_module_name h = "ahci"
    · simp [scsi_hosts_rows, List.filter_cons, hh, ih]
    · simp [scsi_hosts_rows, List.filter_cons, hh, ih]

lemma shost_devs_go_filter_ahci (l : List ScsiHost) : ∀ acc,
    shost_devs_go acc l =
      shost_devs_go acc (l.filter fun h => host_module_name h != "ahci") := by
  induction l with
  | nil => intro acc; rfl
  | cons h t ih =>
    intro acc
    by_cases hh : host_module_name h = "ahci"
    · simp [shost_devs_go, List.filter_cons, hh, ih]
    · rw [List.filter_cons_of_pos (by simp [hh])]
      simp only [shost_devs_go]
      rw [if_neg hh, if_neg hh]
      cases shost_dev_rows h.devices with
      | none => rfl
      | some rows => exact ih _

/-! ### Claims -/

/-- Claim C5: a host whose owning driver module name is "ahci" is
excluded, together with its devices, from both the host table of
`print_scsi_hosts` and the per-host device tables of
`print_shost_devs`, regardless of its other fields: both outputs are
unchanged by removing every such host from the host list. -/
theorem c5_ahci_filtered (p : Prog) :
    print_scsi_hosts p =
      print_scsi_hosts
        { p with hosts := p.hosts.filter fun h => host_module_name h != "ahci" } ∧
    print_shost_devs p =
      print_shost_devs
        { p with hosts := p.hosts.filter fun h => host_module_name h != "ahci" } := by
  constructor
  · show hosts_header :: scsi_hosts_rows p.hosts = hosts_header :: _
    rw [scsi_hosts_rows_filter_ahci]
  · unfold print_shost_devs
    cases hm : p.debuginfo_msg with
    | some m => rfl
    | none =>
      simp only []
      rw [← shost_devs_go_filter_ahci]

/-- Claim C6: for every disk, `for_each_scsi_cmnd` takes exactly one of
the two enumeration paths — the multi-queue path precisely when the
queue exposes a multi-queue operations table (the `mq_ops` member
exists and is non-NULL), and the single-queue path otherwise; never
both and never neither. -/
theorem c6_queue_path (p : Prog) (d : Disk) :
    (cmnd_path d = QueuePath.mq ↔ spec_exposes_mq_ops d.queue) ∧
    (cmnd_path d = QueuePath.mq ∨ cmnd_path d = QueuePath.sq) ∧
    ¬(cmnd_path d = QueuePath.mq ∧ cmnd_path d = QueuePath.sq) ∧
    (cmnd_path d = QueuePath.mq →
      for_each_scsi_cmnd p d = for_each_scsi_cmd_mq p d.queue) ∧
    (cmnd_path d = QueuePath.sq →
      for_each_scsi_cmnd p d = for_each_scsi_cmd_sq p d.queue) := by
  by_cases hc : d.queue.has_mq_ops = true ∧ d.queue.mq_ops ≠ 0
  · simp [cmnd_path, for_each_scsi_cmnd, spec_exposes_mq_ops, hc]
  · simp [cmnd_path, for_each_scsi_cmnd, spec_exposes_mq_ops, hc]

def q6 : RequestQueue := ⟨true, 1, [], [(0, 3000)]⟩

def d6 : Disk := ⟨q6, 1, 1⟩

def p6 : Prog :=
  ⟨[], [d6], none, 0, 100, true, true, fun _ => ⟨fun _ => 0, 0, 0, 0⟩,
    fun _ => ⟨0⟩, fun _ => ⟨0, 0⟩⟩

/-- Witness for C6 at a concrete multi-queue disk. -/
theorem c6_witness :
    for_each_scsi_cmnd p6 d6 = for_each_scsi_cmd_mq p6 d6.queue ∧
    cmnd_path d6 = QueuePath.mq := by
  refine ⟨(c6_queue_path p6 d6).2.2.2.1 (by decide), by decide⟩

/-- Claim C7: every command address yielded by the single-queue or
multi-queue enumeration is some pending request address plus
`sizeof(struct request)`, and a zero payload address is never yielded
(the source skips it). -/
theorem c7_cmnd_offset (p : Prog) (q : RequestQueue) (c : Nat) :
    (c ∈ for_each_scsi_cmd_sq p q ↔
      c ≠ 0 ∧ ∃ rq ∈ q.sq_pending, c = rq + p.request_size) ∧
    (c ∈ for_each_scsi_cmd_mq p q ↔
      c ≠ 0 ∧ ∃ pr ∈ q.mq_pending, c = pr.2 + p.request_size) := by
  constructor
  · simp only [for_each_scsi_cmd_sq, List.mem_filterMap]
    constructor
    · rintro ⟨rq, hrq, hf⟩
      by_cases h0 : rq + p.request_size = 0
      · simp [h0] at hf
      · simp only [h0, if_false, ite_false, Option.some.injEq] at hf
        subst hf
        exact ⟨h0, rq, hrq, rfl⟩
    · rintro ⟨hc, rq, hrq, rfl⟩
      exact ⟨rq, hrq, by simp [hc]⟩
  · simp only [for_each_scsi_cmd_mq, List.mem_filterMap]
    constructor
    · rintro ⟨pr, hpr, hf⟩
      by_cases h0 : pr.2 + p.request_size = 0
      · simp [h0] at hf
      · simp only [h0, if_false, ite_false, Option.some.injEq] at hf
        subst hf
        exact ⟨h0, pr, hpr, rfl⟩
    · rintro ⟨hc, pr, hpr, rfl⟩
      exact ⟨pr, hpr, by simp [hc]⟩

/-- Claim C10: the request-address reconstruction of
`print_scsi_cmnds` inverts the command-address derivation of the
pending-request enumerations: mapping `req_of_cmnd` over the yielded
command addresses gives back exactly the pending request addresses. -/
theorem c10_roundtrip (p : Prog) (q : RequestQueue)
    (hs : 0 < p.request_size) :
    (for_each_scsi_cmd_sq p q).map (req_of_cmnd p) = q.sq_pending ∧
    (for_each_scsi_cmd_mq p q).map (req_of_cmnd p) =
      q.mq_pending.map Prod.snd := by
  obtain ⟨hm, mo, sq, mq⟩ := q
  constructor
  · simp only [for_each_scsi_cmd_sq]
    induction sq with
    | nil => rfl
    | cons rq t ih =>
      have h0 : ¬(rq = 0 ∧ p.request_size = 0) := by omega
      simpa [List.filterMap_cons, h0, req_of_cmnd] using ih
  · simp only [for_each_scsi_cmd_mq]
    induction mq with
    | nil => rfl
    | cons pr t ih =>
      have h0 : ¬(pr.2 = 0 ∧ p.request_size = 0) := by omega
      simpa [List.filterMap_cons, h0, req_of_cmnd] using ih

def q10 : RequestQueue := ⟨false, 0, [4096, 8192], [(1, 12288)]⟩

def p10 : Prog :=
  ⟨[], [], none, 0, 320, true, true, fun _ => ⟨fun _ => 0, 0, 0, 0⟩,
    fun _ => ⟨0⟩, fun _ => ⟨0, 0⟩⟩

/-- Witness for C10 at a concrete queue. -/
theorem c10_witness :
    (for_each_scsi_cmd_sq p10 q10).map (req_of_cmnd p10) = q10.sq_pending :=
  (c10_roundtrip p10 q10 (by decide)).1

def q7 : RequestQueue := ⟨false, 0, [4096], [(0, 8192)]⟩

def p7 : Prog :=
  ⟨[], [], none, 0, 320, true, true, fun _ => ⟨fun _ => 0, 0, 0, 0⟩,
    fun _ => ⟨0⟩, fun _ => ⟨0, 0⟩⟩

/-- Witness for C7 at a concrete queue: 4416 = 4096 + 320 is yielded. -/
theorem c7_witness :
    4416 ∈ for_each_scsi_cmd_sq p7 q7 ∧
    8512 ∈ for_each_scsi_cmd_mq p7 q7 := by
  constructor
  · exact (c7_cmnd_offset p7 q7 4416).1.mpr
      ⟨by decide, 4096, by decide, by decide⟩
  · exact (c7_cmnd_offset p7 q7 8512).2.mpr
      ⟨by decide, (0, 8192), by decide, by decide⟩

/-- Claim C8: absence of the optional `host_busy` member is not an
error: a host fixture with the member and the same fixture without it
both yield exactly their row in `print_scsi_hosts`, the rows agree in
every column except `Busy` (index 4), and the member-absent fixture
reports the sentinel "n/a" there while the member-present one reports
the counter value. -/
theorem c8_host_busy_optional (h : ScsiHost) (n : Nat)
    (hname : host_module_name h ≠ "ahci") :
    scsi_hosts_rows [{ h with host_busy := some n }] =
      [scsi_host_row { h with host_busy := some n }] ∧
    scsi_hosts_rows [{ h with host_busy := none }] =
      [scsi_host_row { h with host_busy := none }] ∧
    scsi_host_row { h with host_busy := none } =
      (scsi_host_row { h with host_busy := some n }).set 4 "n/a" ∧
    host_busy_col { h with host_busy := some n } = toString n := by
  have h1 : host_module_name { h with host_busy := some n } =
      host_module_name h := rfl
  have h2 : host_module_name { h with host_busy := none } =
      host_module_name h := rfl
  refine ⟨?_, ?_, ?_, rfl⟩
  · simp [scsi_hosts_rows, h1, hname]
  · simp [scsi_hosts_rows, h2, hname]
  · simp [scsi_host_row, host_busy_col, List.set, host_module_name,
      modver_col, eh_deadline_col]

def h8 : ScsiHost :=
  ⟨4096, 2, some ("mpt3sas"), some ("43.100"), none, 5, 0,
    "SHOST_RUNNING", some 30, []⟩

/-- Witness for C8 at a concrete host fixture. -/
theorem c8_witness :
    scsi_hosts_rows [{ h8 with host_busy := some 7 }] =
      [scsi_host_row { h8 with host_busy := some 7 }] ∧
    scsi_hosts_rows [{ h8 with host_busy := none }] =
      [scsi_host_row { h8 with host_busy := none }] ∧
    scsi_host_row { h8 with host_busy := none } =
      (scsi_host_row { h8 with host_busy := some 7 }).set 4 "n/a" ∧
    host_busy_col { h8 with host_busy := some 7 } = toString 7 :=
  c8_host_busy_optional h8 7 (by decide)

lemma shost_dev_rows_none_of_fault : ∀ l : List ScsiDevice,
    (∃ d ∈ l, d.vendor_read = none) → shost_dev_rows l = none := by
  intro l
  induction l with
  | nil =>
    rintro ⟨d, hd, -⟩
    cases hd
  | cons d t ih =>
    rintro ⟨e, he, hv⟩
    rcases List.mem_cons.mp he with rfl | he'
    · simp [shost_dev_rows, shost_dev_row, hv]
    · cases hd : shost_dev_row d with
      | none => simp [shost_dev_rows, hd]
      | some row => simp [shost_dev_rows, hd, ih ⟨e, he', hv⟩]

lemma shost_devs_go_faulted : ∀ (l : List ScsiHost)
    (acc : List (List (List String))),
    (∃ h ∈ l, host_module_name h ≠ "ahci" ∧
      ∃ d ∈ h.devices, d.vendor_read = none) →
    (shost_devs_go acc l).2 = true := by
  intro l
  induction l with
  | nil =>
    rintro acc ⟨h, hh, -⟩
    cases hh
  | cons h t ih =>
    rintro acc ⟨g, hg, hga, hdev⟩
    rcases List.mem_cons.mp hg with rfl | hg'
    · have hrows := shost_dev_rows_none_of_fault g.devices hdev
      simp [shost_devs_go, hga, hrows]
    · by_cases hah : host_module_name h = "ahci"
      · simpa [shost_devs_go, hah] using ih acc ⟨g, hg', hga, hdev⟩
      · simp only [shost_devs_go]
        rw [if_neg hah]
        cases shost_dev_rows h.devices with
        | none => rfl
        | some rows => exact ih _ ⟨g, hg', hga, hdev⟩

/-- Claim C1 (amended): a `FaultError` on a device's vendor-string read
is not caught anywhere in `print_shost_devs`: whenever some non-ahci
host has a device whose vendor read faults (and the debug-info gate
passes), the fault escapes the function — the faulting device is not
emitted with a sentinel vendor.  Only the device-name read inside
`scsi_device_name` substitutes a sentinel. -/
theorem c1_vendor_fault_aborts (p : Prog) (h : ScsiHost)
    (hdbg : p.debuginfo_msg = none) (hmem : h ∈ p.hosts)
    (hname : host_module_name h ≠ "ahci")
    (hfault : ∃ d ∈ h.devices, d.vendor_read = none) :
    dev_report_faulted (print_shost_devs p) = true := by
  unfold print_shost_devs
  rw [hdbg]
  exact shost_devs_go_faulted p.hosts [] ⟨h, hmem, hname, hfault⟩

def d1c : ScsiDevice :=
  ⟨8192, none, some ("sda"), "SDEV_RUNNING", 0, 0, 0, 0, 3, 3, 0⟩

def h1c : ScsiHost :=
  ⟨4096, 0, some ("mydriver"), none, none, 0, 0, "SHOST_RUNNING", none,
    [d1c]⟩

def p1c : Prog :=
  ⟨[h1c], [], none, 0, 320, true, true, fun _ => ⟨fun _ => 0, 0, 0, 0⟩,
    fun _ => ⟨0⟩, fun _ => ⟨0, 0⟩⟩

/-- Counterexample to claim C1 as stated: one non-ahci host with a
single device whose vendor-string read raises a `FaultError`.  The
claim says the device is still emitted with a sentinel vendor string;
the code emits no table at all and the fault escapes. -/
theorem c1_counterexample :
    print_shost_devs p1c = DevReport.ran [] true := by
  decide

/-- Witness for C1 at the concrete faulting fixture. -/
theorem c1_witness : dev_report_faulted (print_shost_devs p1c) = true :=
  c1_vendor_fault_aborts p1c h1c rfl (by decide) (by decide)
    ⟨d1c, by decide, rfl⟩

/-- Counterexample to claim C2 as stated: with sampled `jiffies = 0`
and `jiffies_at_alloc = 1` (allocation after the sample), the claim
requires a reported age of zero; the code's unsigned subtraction wraps
to `2 ^ 64 - 1` ticks, then multiplies by 1000000. -/
theorem c2_counterexample :
    cmnd_age 0 1 = 18446744073709551615000000 ∧ cmnd_age 0 1 ≠ 0 := by
  constructor <;> decide

/-- Claim C2 (amended): the reported age is
`((jiffies - jiffies_at_alloc) mod 2 ^ 64) * 1000000` nanoseconds.
When the allocation tick is not after the sample this is the plain
difference scaled by 1000000; when the allocation tick is greater than
the sampled tick there is no clamping to zero — the unsigned
subtraction wraps to `2 ^ 64 - (alloc - jiffies)`, a large positive
count.  (Being a `Nat`, the result is indeed never negative.) -/
theorem c2_age_no_clamp (j a : Nat) (hj : j < 2 ^ 64) (ha : a < 2 ^ 64) :
    (a ≤ j → cmnd_age j a = (j - a) * 1000000) ∧
    (j < a → cmnd_age j a = (2 ^ 64 - (a - j)) * 1000000) := by
  unfold cmnd_age
  constructor <;> intro h <;> congr 1 <;> omega

/-- Witness for C2 at concrete tick values on both sides of the wrap. -/
theorem c2_witness :
    cmnd_age 5 3 = 2 * 1000000 ∧
    cmnd_age 3 5 = (2 ^ 64 - 2) * 1000000 := by
  constructor
  · exact (c2_age_no_clamp 5 3 (by norm_num) (by norm_num)).1 (by norm_num)
  · exact (c2_age_no_clamp 3 5 (by norm_num) (by norm_num)).2 (by norm_num)

/-- Counterexample to claim C3 as stated: opcode 0x28 with CDB bytes
0x80, 0x00 and transfer size 131072.  The claimed product is
`32768 * 131072 = 2 ^ 32`, but the drgn multiplication produces a C
`unsigned int`, which wraps to 0. -/
theorem c3_counterexample :
    xfer_len_of 40 128 0 131072 = 0 ∧
    ((128 <<< 8) ||| 0) * 131072 ≠ 0 := by
  constructor <;> decide

/-- Claim C3 (amended): the reported transfer length is the big-endian
combination of CDB bytes 7 and 8 times `transfersize`, reduced modulo
`2 ^ 32` (C `unsigned int`), for opcodes 0x28 and 0x2a — so it equals
the plain product whenever that product is below `2 ^ 32`, which covers
the fixtures (opcode 0x28, bytes 0x00/0x04, size 512 gives 2048) — and
0 for every other opcode (such as 0x12). -/
theorem c3_xfer_len (op b7 b8 ts : Nat)
    (hlt : ((b7 <<< 8) ||| b8) * ts < 2 ^ 32) :
    ((op = 40 ∨ op = 42) →
      xfer_len_of op b7 b8 ts = ((b7 <<< 8) ||| b8) * ts) ∧
    ((op ≠ 40 ∧ op ≠ 42) → xfer_len_of op b7 b8 ts = 0) := by
  constructor
  · intro hop
    unfold xfer_len_of
    rw [if_pos (by tauto)]
    exact Nat.mod_eq_of_lt hlt
  · rintro ⟨h1, h2⟩
    unfold xfer_len_of
    rw [if_neg (by tauto)]

/-- Witness for C3 at the spec's two fixtures. -/
theorem c3_witness :
    xfer_len_of 40 0 4 512 = 2048 ∧ xfer_len_of 18 0 4 512 = 0 := by
  constructor
  · have h := (c3_xfer_len 40 0 4 512 (by decide)).1 (Or.inl rfl)
    rw [h]
    decide
  · exact (c3_xfer_len 18 0 4 512 (by decide)).2 (by decide)

/-- Claim C4 (amended): only the device report is gated on debug-info
availability: whenever `ensure_debuginfo` reports a message,
`print_shost_devs` is skipped entirely with that message and begins no
traversal.  `print_scsi_cmnds` has no debug-info check: with the
message present it still iterates the disks and enumerates their
pending commands, and as soon as a disk's first command reaches the
per-disk header block, the cast of the disk's private data to the
`sd_mod` type `struct scsi_disk` raises — the report crashes with an
escaped exception and no user-visible message, rather than being
skipped. -/
theorem c4_gating :
    (∀ (p : Prog) (m : String), p.debuginfo_msg = some m →
      print_shost_devs p = DevReport.skipped m) ∧
    (∀ (p : Prog) (m : String) (d : Disk) (rest : List Disk)
      (c : Nat) (cs : List Nat),
      p.debuginfo_msg = some m →
      p.disks = d :: rest →
      for_each_scsi_cmnd p d = c :: cs →
      c ≠ 0 →
      print_scsi_cmnds p = ([], true)) := by
  constructor
  · intro p m hm
    unfold print_shost_devs
    rw [hm]
  · intro p m d rest c cs hm hdisks hfe hc0
    unfold print_scsi_cmnds
    rw [hdisks]
    simp only [print_scsi_cmnds_go]
    rw [hfe]
    simp [cmnd_rows_go, hc0, hm]

def q4 : RequestQueue := ⟨false, 0, [1000], []⟩

def d4 : Disk := ⟨q4, 1, 1⟩

def p4c : Prog :=
  ⟨[], [d4], some ("sd_mod debuginfo missing"), 50, 100, true, true,
    fun _ => ⟨fun i => if i = 0 then 40 else 0, 512, 40, 1000⟩,
    fun _ => ⟨5000⟩, fun _ => ⟨7, 7⟩⟩

/-- Counterexample to claim C4 as stated: with the debug-info message
present, `print_scsi_cmnds` is neither skipped with a user-visible
message nor left unexecuted: its traversal begins, reaches the disk's
first pending command and crashes there at the `struct scsi_disk` cast
(escaped-exception flag `true`), while the same fixture with debug
info available emits the disk's table. -/
theorem c4_counterexample :
    p4c.debuginfo_msg = some ("sd_mod debuginfo missing") ∧
    print_scsi_cmnds p4c = ([], true) ∧
    print_scsi_cmnds p4c ≠
      print_scsi_cmnds { p4c with debuginfo_msg := none } := by
  refine ⟨rfl, by decide, by decide⟩

/-- Witness for C4 at the concrete fixture with the message present. -/
theorem c4_witness :
    print_shost_devs p4c = DevReport.skipped ("sd_mod debuginfo missing") ∧
    print_scsi_cmnds p4c = ([], true) :=
  ⟨c4_gating.1 p4c ("sd_mod debuginfo missing") rfl,
   c4_gating.2 p4c ("sd_mod debuginfo missing") d4 [] 1100 [] rfl rfl rfl
     (by decide)⟩

/-- Claim C9 (amended): the `sector` local of `print_scsi_cmnds` is
assigned only under the non-null-bio guard and is never reset between
commands or disks.  Consequently (first conjunct) when the first
enumerated command of the first disk reaches row building with a
null bio pointer, the whole report aborts with nothing emitted — the
unassigned-variable failure the claim describes; but (second conjunct)
a later null-bio command whose `sector` was assigned by any earlier
command does not fail: its row is emitted carrying the stale sector
value of that earlier command. -/
theorem c9_sector_unassigned :
    (∀ (p : Prog) (d : Disk) (rest : List Disk) (c : Nat) (cs : List Nat),
      p.disks = d :: rest →
      for_each_scsi_cmnd p d = c :: cs →
      c ≠ 0 → d.private_data ≠ 0 → d.device_ptr ≠ 0 →
      (p.req_at (cmnd_req_addr p c)).bio_ptr = 0 →
      print_scsi_cmnds p = ([], true)) ∧
    (∀ (p : Prog) (d : Disk) (k s : Nat) (rows : List (List String))
      (c : Nat) (cs : List Nat),
      c ≠ 0 →
      (p.req_at (cmnd_req_addr p c)).bio_ptr = 0 →
      ∃ row : List String,
        cmnd_rows_go p d (k + 1) (some s) rows (c :: cs) =
          cmnd_rows_go p d (k + 2) (some s) (rows ++ [row]) cs ∧
        row.getD 7 ("") = toString s) := by
  constructor
  · intro p d rest c cs hdisks hfe hc0 hpd hdev hbio
    unfold print_scsi_cmnds
    rw [hdisks]
    simp only [print_scsi_cmnds_go]
    rw [hfe]
    by_cases hdbg : p.debuginfo_msg.isSome
    · simp [cmnd_rows_go, hc0, hdbg]
    · simp [cmnd_rows_go, hc0, hpd, hdev, hbio, hdbg]
  · intro p d k s rows c cs hc0 hbio
    refine ⟨[toString (k + 2), hex (cmnd_req_addr p c), hex 0, hex c,
      hex ((p.cmnd_at c).cmnd 0),
      toString (xfer_len_of ((p.cmnd_at c).cmnd 0) ((p.cmnd_at c).cmnd 7)
        ((p.cmnd_at c).cmnd 8) (p.cmnd_at c).transfersize),
      timestamp_str (cmnd_age p.jiffies (p.cmnd_at c).jiffies_at_alloc),
      toString s], ?_, by simp [List.getD]⟩
    simp [cmnd_rows_go, hc0, hbio]

def q9a : RequestQueue := ⟨false, 0, [1000], []⟩

def q9b : RequestQueue := ⟨false, 0, [2000], []⟩

def d9a : Disk := ⟨q9a, 1, 1⟩

def d9b : Disk := ⟨q9b, 1, 1⟩

def p9c : Prog :=
  ⟨[], [d9a, d9b], none, 50, 100, true, true,
    fun a =>
      if a = 1100 then ⟨fun i => if i = 0 then 40 else 0, 512, 40, 1000⟩
      else ⟨fun i => if i = 0 then 40 else 0, 512, 40, 2000⟩,
    fun r => if r = 1000 then ⟨5000⟩ else ⟨0⟩,
    fun _ => ⟨7, 7⟩⟩

/-- Counterexample to claim C9 as stated: the second disk's first (and
only) command has a null bio pointer, yet the report does not fail for
that disk — because the first disk's command already assigned `sector`,
the second disk's row is emitted with the stale sector value 7. -/
theorem c9_counterexample :
    (print_scsi_cmnds p9c).2 = false ∧
    (((print_scsi_cmnds p9c).1.getD 1 []).getD 1 []).getD 7 ("") = "7" := by
  constructor <;> decide

def q9w : RequestQueue := ⟨false, 0, [3000], []⟩

def d9w : Disk := ⟨q9w, 1, 1⟩

def p9w : Prog :=
  ⟨[], [d9w], none, 50, 100, true, true,
    fun _ => ⟨fun i => if i = 0 then 18 else 0, 512, 40, 3000⟩,
    fun _ => ⟨0⟩, fun _ => ⟨0, 0⟩⟩

/-- Witness for C9: the abort case at a fixture whose very first
command has a null bio, and the stale-emission case at an assigned
`sector` state. -/
theorem c9_witness :
    print_scsi_cmnds p9w = ([], true) ∧
    ∃ row : List String,
      cmnd_rows_go p9w d9w 1 (some 7) [] [3100] =
        cmnd_rows_go p9w d9w 2 (some 7) ([] ++ [row]) [] ∧
      row.getD 7 ("") = toString 7 := by
  constructor
  · exact c9_sector_unassigned.1 p9w d9w [] 3100 [] rfl rfl (by decide)
      (by decide) (by decide) (by decide)
  · exact c9_sector_unassigned.2 p9w d9w 0 7 [] 3100 [] (by decide)
      (by decide)
